import Mathlib

/-!
Verification of `serve-test-app.py`, a small static-file HTTP server that
injects CORS headers on every response, short-circuits `OPTIONS` preflight
requests, and auto-opens a browser on startup.

The development has two parts:

* a wire-event model of one handled request (`handle`), embedding
  `CORSHTTPRequestHandler.end_headers` and `do_OPTIONS` from the source and
  modelling the inherited static-file dispatch of
  `http.server.SimpleHTTPRequestHandler` (which is not part of this
  repository) from the spec;

* an exception-outcome model of `main` (`runMain`), embedding its
  `try`/`except` control flow: the `with socketserver.TCPServer(...)` block,
  the bare-`except` browser auto-open, the `KeyboardInterrupt` handler
  (exit 0) and the `OSError` handler (errno 48 classified as port-in-use,
  everything else generic; both exit 1).
-/

namespace ServeTestApp

/-- The fixed port, `PORT = 3000` in the source. -/
def PORT : Nat := 3000

/-- The three headers added by `CORSHTTPRequestHandler.end_headers`, in the
order the source sends them. -/
def corsHeaders : List (String × String) :=
  [("Access-Control-Allow-Origin", "*"),
   ("Access-Control-Allow-Methods", "GET, POST, OPTIONS"),
   ("Access-Control-Allow-Headers", "Content-Type, Authorization")]

/-- One event on the response wire: the status line, a header line, the blank
line that finalizes/flushes the header section, or a chunk of body bytes. -/
inductive WireEvent where
  | statusLine (code : Nat)
  | header (name value : String)
  | endOfHeaders
  | bodyChunk (bytes : List Nat)
deriving DecidableEq, Repr

/-- Whether an event is the header-section terminator. -/
def WireEvent.isEndOfHeaders : WireEvent → Bool
  | .endOfHeaders => true
  | _ => false

/-- `CORSHTTPRequestHandler.end_headers`: `send_header` for each of the three
CORS headers, then `super().end_headers()`, which writes the blank line
finalizing the header section. -/
def end_headers : List WireEvent :=
  (corsHeaders.map fun p => WireEvent.header p.1 p.2) ++ [WireEvent.endOfHeaders]

/-- `CORSHTTPRequestHandler.do_OPTIONS`: `send_response(200)` followed by
`end_headers()`; no body is written and no file lookup runs. -/
def do_OPTIONS : List WireEvent :=
  WireEvent.statusLine 200 :: end_headers

/-- An abstract read-only document root: a request path maps to the bytes of
an existing regular file, or to `none` when no file exists there. -/
def Filesystem : Type := String → Option (List Nat)

/-- Modelled from the spec: the MIME type the standard static-file handler
(`SimpleHTTPRequestHandler.guess_type`, not in this repository) infers from
the file extension of the request path. -/
def guess_type (path : String) : String :=
  if path.endsWith ".html" then "text/html"
  else if path.endsWith ".js" then "text/javascript"
  else if path.endsWith ".css" then "text/css"
  else if path.endsWith ".json" then "application/json"
  else if path.endsWith ".png" then "image/png"
  else "application/octet-stream"

/-- Modelled from the spec: the error-page body bytes of the standard
handler's `send_error` (not in this repository); its exact contents are not
part of any contract, only that an HTML error page is sent. -/
def errorPage (code : Nat) : List Nat :=
  (toString code).toList.map Char.toNat

/-- Modelled from the spec: `send_error` of the standard handler (not in this
repository) — a status line and error Content-Type, headers finalized through
the overridden `end_headers`, then an error-page body. -/
def send_error (code : Nat) : List WireEvent :=
  WireEvent.statusLine code
    :: WireEvent.header "Content-Type" "text/html;charset=utf-8"
    :: (end_headers ++ [WireEvent.bodyChunk (errorPage code)])

/-- Modelled from the spec: the static-file resolution of the standard
handler's `do_GET` (not in this repository) — status 200 with the file's
exact bytes and an inferred Content-Type for an existing file, `send_error
404` otherwise. Headers are finalized through the overridden `end_headers`. -/
def do_GET (fs : Filesystem) (path : String) : List WireEvent :=
  match fs path with
  | some bytes =>
      WireEvent.statusLine 200
        :: WireEvent.header "Content-Type" (guess_type path)
        :: WireEvent.header "Content-Length" (toString bytes.length)
        :: (end_headers ++ [WireEvent.bodyChunk bytes])
  | none => send_error 404

/-- One request handled by `CORSHTTPRequestHandler`. The `OPTIONS` branch is
`do_OPTIONS` from the source; the dispatch of the remaining methods (`GET`
served from the document root, unsupported methods rejected with 501 by
`send_error`) is the inherited standard handler, modelled from the spec. The
second component records whether file-lookup logic ran for the request. -/
def handle (fs : Filesystem) (method : String) (path : String) :
    List WireEvent × Bool :=
  if method = "OPTIONS" then (do_OPTIONS, false)
  else if method = "GET" then (do_GET fs path, true)
  else (send_error 501, false)

/-- The status code of a response: the code of its first status line. -/
def responseStatus (evs : List WireEvent) : Option Nat :=
  evs.findSome? fun e =>
    match e with
    | .statusLine c => some c
    | _ => none

/-- The body of a response: all body chunks concatenated. -/
def responseBody (evs : List WireEvent) : List Nat :=
  evs.foldr
    (fun e acc =>
      match e with
      | .bodyChunk b => b ++ acc
      | _ => acc) []

/-- The header lines appearing in a list of wire events, in order. -/
def headersOf (evs : List WireEvent) : List (String × String) :=
  evs.foldr
    (fun e acc =>
      match e with
      | .header n v => (n, v) :: acc
      | _ => acc) []

/-- The headers sent strictly before the header section is finalized. -/
def headersBeforeFinalize (evs : List WireEvent) : List (String × String) :=
  headersOf (evs.takeWhile fun e => ! e.isEndOfHeaders)

lemma headersOf_append (l₁ l₂ : List WireEvent) :
    headersOf (l₁ ++ l₂) = headersOf l₁ ++ headersOf l₂ := by
  induction l₁ with
  | nil => rfl
  | cons a l ih =>
      cases a <;> simp [headersOf, List.foldr] at * <;> simp [ih]

lemma takeWhile_append_of_notEnd (pre rest : List WireEvent)
    (hpre : ∀ e ∈ pre, e.isEndOfHeaders = false) :
    (pre ++ rest).takeWhile (fun e => ! e.isEndOfHeaders)
      = pre ++ rest.takeWhile (fun e => ! e.isEndOfHeaders) := by
  induction pre with
  | nil => rfl
  | cons a l ih =>
      have ha : a.isEndOfHeaders = false := hpre a (List.mem_cons_self a l)
      have hl : ∀ e ∈ l, e.isEndOfHeaders = false :=
        fun e he => hpre e (List.mem_cons_of_mem a he)
      simp [List.takeWhile, ha, ih hl]

/-- In any response built as `pre ++ end_headers ++ tail` where `pre` does not
finalize the headers, the three CORS headers are among the headers sent before
finalization, and the header section does get finalized. -/
lemma cors_block (pre tail : List WireEvent)
    (hpre : ∀ e ∈ pre, e.isEndOfHeaders = false) :
    (∀ p ∈ corsHeaders, p ∈ headersBeforeFinalize (pre ++ (end_headers ++ tail))) ∧
    WireEvent.endOfHeaders ∈ pre ++ (end_headers ++ tail) := by
  constructor
  · intro p hp
    unfold headersBeforeFinalize
    rw [takeWhile_append_of_notEnd pre _ hpre]
    have hblock : (end_headers ++ tail).takeWhile (fun e => ! e.isEndOfHeaders)
        = corsHeaders.map fun q => WireEvent.header q.1 q.2 := by
      simp [end_headers, corsHeaders, List.takeWhile, WireEvent.isEndOfHeaders]
    rw [hblock, headersOf_append]
    refine List.mem_append_right _ ?_
    simp only [corsHeaders, headersOf, List.map, List.foldr] at *
    exact hp
  · simp [end_headers]

end ServeTestApp

namespace ServeTestApp

/-- C1: every handled request, whatever its method and status, carries the
three CORS headers, and they are sent before the header section is
finalized/flushed. -/
theorem cors_headers_on_every_response (fs : Filesystem) (method path : String) :
    (∀ p ∈ corsHeaders, p ∈ headersBeforeFinalize (handle fs method path).1) ∧
    WireEvent.endOfHeaders ∈ (handle fs method path).1 := by
  unfold handle
  by_cases h1 : method = "OPTIONS"
  · have h := cors_block [WireEvent.statusLine 200] []
      (by intro e he; simp at he; subst he; rfl)
    simpa [h1, do_OPTIONS] using h
  · by_cases h2 : method = "GET"
    · simp only [h1, h2, if_false, if_true, if_neg, if_pos]
      unfold do_GET
      cases hfs : fs path with
      | some bytes =>
          have h := cors_block
            [WireEvent.statusLine 200,
             WireEvent.header "Content-Type" (guess_type path),
             WireEvent.header "Content-Length" (toString bytes.length)]
            [WireEvent.bodyChunk bytes]
            (by intro e he; simp at he; rcases he with h | h | h <;> subst h <;> rfl)
          simpa using h
      | none =>
          have h := cors_block
            [WireEvent.statusLine 404,
             WireEvent.header "Content-Type" "text/html;charset=utf-8"]
            [WireEvent.bodyChunk (errorPage 404)]
            (by intro e he; simp at he; rcases he with h | h <;> subst h <;> rfl)
          simpa [send_error] using h
    · have h := cors_block
        [WireEvent.statusLine 501,
         WireEvent.header "Content-Type" "text/html;charset=utf-8"]
        [WireEvent.bodyChunk (errorPage 501)]
        (by intro e he; simp at he; rcases he with h | h <;> subst h <;> rfl)
      simpa [h1, h2, send_error] using h

/-- C2: an `OPTIONS` request on any path gets status exactly 200 with an
empty body, and no file-lookup logic runs for that request. -/
theorem options_short_circuit (fs : Filesystem) (path : String) :
    responseStatus (handle fs "OPTIONS" path).1 = some 200 ∧
    responseBody (handle fs "OPTIONS" path).1 = [] ∧
    (handle fs "OPTIONS" path).2 = false := by
  refine ⟨?_, ?_, ?_⟩ <;>
    simp [handle, do_OPTIONS, end_headers, corsHeaders, responseStatus,
      responseBody, List.findSome?, List.foldr]

/-- C5: a `GET` request to a path mapping to an existing file gets status 200,
a body equal to the file's exact bytes, and a Content-Type inferred from the
file's extension, sent before the headers are finalized. -/
theorem get_existing_file (fs : Filesystem) (path : String) (bytes : List Nat)
    (h : fs path = some bytes) :
    responseStatus (handle fs "GET" path).1 = some 200 ∧
    responseBody (handle fs "GET" path).1 = bytes ∧
    ("Content-Type", guess_type path) ∈
      headersBeforeFinalize (handle fs "GET" path).1 := by
  have hm : ("GET" : String) ≠ "OPTIONS" := by decide
  refine ⟨?_, ?_, ?_⟩ <;>
    simp [handle, hm, do_GET, h, end_headers, corsHeaders, responseStatus,
      responseBody, headersBeforeFinalize, headersOf, WireEvent.isEndOfHeaders,
      List.findSome?, List.foldr, List.takeWhile]

/-- Witness for `get_existing_file`: a one-file document root containing
`/test-app.html` with bytes `[104, 105]`. -/
theorem get_existing_file_witness :
    responseStatus
        (handle (fun p => if p = "/test-app.html" then some [104, 105] else none)
          "GET" "/test-app.html").1 = some 200 ∧
    responseBody
        (handle (fun p => if p = "/test-app.html" then some [104, 105] else none)
          "GET" "/test-app.html").1 = [104, 105] ∧
    ("Content-Type", guess_type "/test-app.html") ∈
      headersBeforeFinalize
        (handle (fun p => if p = "/test-app.html" then some [104, 105] else none)
          "GET" "/test-app.html").1 :=
  get_existing_file (fun p => if p = "/test-app.html" then some [104, 105] else none)
    "/test-app.html" [104, 105] (by simp)

/-- C6: a `GET` request to a path mapping to no existing file gets status 404. -/
theorem get_missing_file (fs : Filesystem) (path : String)
    (h : fs path = none) :
    responseStatus (handle fs "GET" path).1 = some 404 := by
  have hm : ("GET" : String) ≠ "OPTIONS" := by decide
  simp [handle, hm, do_GET, h, send_error, responseStatus, List.findSome?]

/-- Witness for `get_missing_file`: an empty document root. -/
theorem get_missing_file_witness :
    responseStatus (handle (fun _ => none) "GET" "/missing.html").1 = some 404 :=
  get_missing_file (fun _ => none) "/missing.html" rfl

/-! ### The control flow of `main` -/

/-- A Python exception relevant to `main`: a `KeyboardInterrupt`, an `OSError`
carrying an errno, or any other exception. -/
inductive Exc where
  | keyboardInterrupt
  | osError (errno : Int)
  | other
deriving DecidableEq, Repr

/-- The external events one run of `main` can encounter: whether the
`socketserver.TCPServer` construction (bind) raises, whether
`webbrowser.open` raises, and the exception by which `serve_forever`
eventually returns control (it never returns normally). -/
structure World where
  bindExc : Option Exc
  browserExc : Option Exc
  serveExc : Exc
deriving DecidableEq, Repr

/-- The errno the source treats as "Address already in use"
(`if e.errno == 48`). -/
def addrInUseErrno : Int := 48

/-- How the `except OSError` branch of `main` classifies an errno: 48 is
reported as port-in-use, anything else as a generic server-start error. -/
inductive StartupErrorClass where
  | portInUse
  | generic
deriving DecidableEq, Repr

/-- The `if e.errno == 48` test inside `except OSError as e`. -/
def classifyOSError (n : Int) : StartupErrorClass :=
  if n = addrInUseErrno then .portInUse else .generic

/-- The port-in-use diagnostic of `main`, with its guidance to use a
different port. -/
def portInUseMsg : String :=
  "❌ Port 3000 is already in use. Try a different port or stop the other service."

/-- The generic startup-failure diagnostic of `main`, mentioning the
underlying OSError. -/
def serverStartMsg (n : Int) : String :=
  "❌ Error starting server: [Errno " ++ toString n ++ "]"

/-- The diagnostic printed by the `except KeyboardInterrupt` branch. -/
def stoppedMsg : String := "\n🛑 Server stopped by user"

/-- The line printed when `webbrowser.open` returns normally. -/
def browserOkMsg : String := "✅ Browser opened automatically"

/-- The line printed by the bare `except:` around `webbrowser.open`. -/
def browserFailMsg : String := "ℹ️  Could not open browser automatically"

/-- The message the `except OSError` branch prints for errno `n`. -/
def osErrorMsg (n : Int) : String :=
  match classifyOSError n with
  | .portInUse => portInUseMsg
  | .generic => serverStartMsg n

/-- The startup banner printed inside the `with` block before anything else. -/
def bannerLogs : List String :=
  ["🚀 BioID Test App Server starting on port 3000",
   "📱 Open your browser to: http://localhost:3000/test-app.html",
   "🔐 Make sure your Keycloak is running on: http://localhost:8080",
   "⏹️  Press Ctrl+C to stop the server",
   ""]

/-- The observable outcome of one run of `main`. -/
structure MainResult where
  exitCode : Option Nat
  uncaughtExc : Option Exc
  logs : List String
  browserAttempts : Nat
  serveLoopEntered : Bool
  serverCloseInvoked : Bool
  osErrorClass : Option StartupErrorClass
deriving DecidableEq, Repr

/-- The two outer `except` clauses of `main`: a `KeyboardInterrupt` prints the
stopped message and exits 0; an `OSError` is classified by errno and exits 1
either way; any other exception propagates uncaught. Returns the exit code,
the uncaught exception if any, the lines printed, and the classification. -/
def dispatchExc (e : Exc) :
    Option Nat × Option Exc × List String × Option StartupErrorClass :=
  match e with
  | .keyboardInterrupt => (some 0, none, [stoppedMsg], none)
  | .osError n => (some 1, none, [osErrorMsg n], some (classifyOSError n))
  | .other => (none, some .other, [], none)

/-- `main`: construct the `TCPServer` inside a `with` block (so its
`server_close` runs whenever the block is exited, including by exception),
print the banner, attempt `webbrowser.open` exactly once under a bare
`except:` that swallows every exception, then run `serve_forever`; the
exception ending the serve loop (or a bind failure) reaches the outer
`except` clauses. -/
def runMain (w : World) : MainResult :=
  match w.bindExc with
  | some e =>
      let r := dispatchExc e
      { exitCode := r.1, uncaughtExc := r.2.1, logs := r.2.2.1,
        browserAttempts := 0, serveLoopEntered := false,
        serverCloseInvoked := false, osErrorClass := r.2.2.2 }
  | none =>
      let browserLog :=
        match w.browserExc with
        | none => browserOkMsg
        | some _ => browserFailMsg
      let r := dispatchExc w.serveExc
      { exitCode := r.1, uncaughtExc := r.2.1,
        logs := bannerLogs ++ [browserLog, ""] ++ r.2.2.1,
        browserAttempts := 1, serveLoopEntered := true,
        serverCloseInvoked := true, osErrorClass := r.2.2.2 }

/-- The state of the listening server. -/
structure ServerState where
  socketOpen : Bool
deriving DecidableEq, Repr

/-- Modelled from the spec: `stop()` — the `server_close` the
`with socketserver.TCPServer(...)` block performs on exit (not in this
repository) — closes the listening socket. -/
def stop (s : ServerState) : ServerState := { s with socketOpen := false }

/-- C3: a bind failure whose errno is the address-in-use code is classified
as port-in-use and reported with the guidance message, any other errno is
classified as a generic server-start error, and both terminate with exit
code 1; the two classifications are distinct. -/
theorem bind_port_in_use_reported (w : World) (n : Int)
    (h : w.bindExc = some (.osError n)) :
    (runMain w).exitCode = some 1 ∧
    osErrorMsg n ∈ (runMain w).logs ∧
    (runMain w).osErrorClass = some (classifyOSError n) ∧
    (n = addrInUseErrno →
      (runMain w).osErrorClass = some .portInUse ∧ osErrorMsg n = portInUseMsg) ∧
    (n ≠ addrInUseErrno →
      (runMain w).osErrorClass = some .generic ∧ osErrorMsg n = serverStartMsg n) ∧
    StartupErrorClass.portInUse ≠ StartupErrorClass.generic := by
  have hr : runMain w =
      { exitCode := some 1, uncaughtExc := none, logs := [osErrorMsg n],
        browserAttempts := 0, serveLoopEntered := false,
        serverCloseInvoked := false, osErrorClass := some (classifyOSError n) } := by
    simp [runMain, h, dispatchExc]
  refine ⟨by simp [hr], by simp [hr], by simp [hr], ?_, ?_, by simp⟩
  · intro hn
    simp [hr, osErrorMsg, classifyOSError, hn]
  · intro hn
    simp [hr, osErrorMsg, classifyOSError, hn]

/-- Witness for `bind_port_in_use_reported` at errno 48. -/
theorem bind_port_in_use_reported_witness :
    (runMain ⟨some (.osError 48), none, .keyboardInterrupt⟩).exitCode = some 1 ∧
    (runMain ⟨some (.osError 48), none, .keyboardInterrupt⟩).osErrorClass =
      some .portInUse ∧
    portInUseMsg ∈ (runMain ⟨some (.osError 48), none, .keyboardInterrupt⟩).logs := by
  have h := bind_port_in_use_reported
    ⟨some (.osError 48), none, .keyboardInterrupt⟩ 48 rfl
  have h48 := h.2.2.2.1 rfl
  exact ⟨h.1, h48.1, by rw [← h48.2]; exact h.2.1⟩

/-- C4: a `KeyboardInterrupt` raised in the serve loop makes the `with` block
close the listening socket and the process exit with code 0; it is not
classified as an error. -/
theorem interrupt_graceful_stop (w : World)
    (hb : w.bindExc = none) (hs : w.serveExc = .keyboardInterrupt) :
    (runMain w).serverCloseInvoked = true ∧
    (runMain w).exitCode = some 0 ∧
    (runMain w).osErrorClass = none ∧
    stoppedMsg ∈ (runMain w).logs := by
  refine ⟨?_, ?_, ?_, ?_⟩ <;> simp [runMain, hb, hs, dispatchExc]

/-- Witness for `interrupt_graceful_stop`. -/
theorem interrupt_graceful_stop_witness :
    (runMain ⟨none, none, .keyboardInterrupt⟩).serverCloseInvoked = true ∧
    (runMain ⟨none, none, .keyboardInterrupt⟩).exitCode = some 0 :=
  ⟨(interrupt_graceful_stop ⟨none, none, .keyboardInterrupt⟩ rfl rfl).1,
   (interrupt_graceful_stop ⟨none, none, .keyboardInterrupt⟩ rfl rfl).2.1⟩

/-- C7: after a successful bind, the browser open is attempted exactly once;
if it raises, only the informational line is logged, the serve loop still
runs, and the exit code is unaffected by the browser outcome. -/
theorem browser_open_best_effort (w : World) (hb : w.bindExc = none) :
    (runMain w).browserAttempts = 1 ∧
    (runMain w).serveLoopEntered = true ∧
    (∀ e : Exc, w.browserExc = some e → browserFailMsg ∈ (runMain w).logs) ∧
    (∀ b : Option Exc,
      (runMain { w with browserExc := b }).exitCode = (runMain w).exitCode ∧
      (runMain { w with browserExc := b }).uncaughtExc = (runMain w).uncaughtExc) := by
  refine ⟨by simp [runMain, hb], by simp [runMain, hb], ?_, ?_⟩
  · intro e he
    simp [runMain, hb, he]
  · intro b
    constructor <;> simp [runMain, hb]

/-- Witness for `browser_open_best_effort`: the browser open raises. -/
theorem browser_open_best_effort_witness :
    (runMain ⟨none, some .other, .keyboardInterrupt⟩).browserAttempts = 1 ∧
    browserFailMsg ∈ (runMain ⟨none, some .other, .keyboardInterrupt⟩).logs := by
  have h := browser_open_best_effort ⟨none, some .other, .keyboardInterrupt⟩ rfl
  exact ⟨h.1, h.2.2.1 .other rfl⟩

/-- C8: `stop` closes the listening socket, is idempotent, and is invoked
(as the `with` block's `server_close`) when an interrupt ends the serve
loop. -/
theorem stop_closes_and_idempotent (s : ServerState) (w : World)
    (hb : w.bindExc = none) (hs : w.serveExc = .keyboardInterrupt) :
    (stop s).socketOpen = false ∧
    stop (stop s) = stop s ∧
    (runMain w).serverCloseInvoked = true := by
  refine ⟨rfl, rfl, ?_⟩
  simp [runMain, hb]

/-- Witness for `stop_closes_and_idempotent`. -/
theorem stop_closes_and_idempotent_witness :
    (stop ⟨true⟩).socketOpen = false ∧
    stop (stop ⟨true⟩) = stop ⟨true⟩ ∧
    (runMain ⟨none, none, .keyboardInterrupt⟩).serverCloseInvoked = true :=
  stop_closes_and_idempotent ⟨true⟩ ⟨none, none, .keyboardInterrupt⟩ rfl rfl

/-- C9: an `OSError` raised from the serve loop after a successful bind
reaches the same `except OSError` branch as a bind failure: the same
classification and message (port-in-use for errno 48, generic otherwise) and
exit code 1. -/
theorem oserror_during_serve_same_branch (w : World) (n : Int)
    (hb : w.bindExc = none) (hs : w.serveExc = .osError n) :
    (runMain w).exitCode = some 1 ∧
    osErrorMsg n ∈ (runMain w).logs ∧
    (runMain w).osErrorClass = some (classifyOSError n) ∧
    (runMain w).osErrorClass =
      (runMain ⟨some (.osError n), w.browserExc, w.serveExc⟩).osErrorClass ∧
    (n = addrInUseErrno → osErrorMsg n = portInUseMsg) ∧
    (n ≠ addrInUseErrno → osErrorMsg n = serverStartMsg n) := by
  refine ⟨?_, ?_, ?_, ?_, ?_, ?_⟩
  · simp [runMain, hb, hs, dispatchExc]
  · simp [runMain, hb, hs, dispatchExc]
  · simp [runMain, hb, hs, dispatchExc]
  · simp [runMain, hb, hs, dispatchExc]
  · intro hn
    simp [osErrorMsg, classifyOSError, hn]
  · intro hn
    simp [osErrorMsg, classifyOSError, hn]

/-- Witness for `oserror_during_serve_same_branch` at errno 98. -/
theorem oserror_during_serve_same_branch_witness :
    (runMain ⟨none, none, .osError 98⟩).exitCode = some 1 ∧
    serverStartMsg 98 ∈ (runMain ⟨none, none, .osError 98⟩).logs := by
  have h := oserror_during_serve_same_branch ⟨none, none, .osError 98⟩ 98 rfl rfl
  have h98 := h.2.2.2.2.2 (by decide)
  exact ⟨h.1, by rw [← h98]; exact h.2.1⟩

/-- C10: a `KeyboardInterrupt` raised by the browser open is swallowed by the
bare `except:`: the could-not-open line is logged, the serve loop is still
entered, and the run's exit code is exactly what it would have been had the
browser open returned normally. -/
theorem browser_interrupt_swallowed (w : World)
    (hb : w.bindExc = none) (hbr : w.browserExc = some .keyboardInterrupt) :
    browserFailMsg ∈ (runMain w).logs ∧
    (runMain w).serveLoopEntered = true ∧
    (runMain w).exitCode = (runMain { w with browserExc := none }).exitCode ∧
    (runMain w).uncaughtExc = (runMain { w with browserExc := none }).uncaughtExc := by
  refine ⟨?_, ?_, ?_, ?_⟩ <;> simp [runMain, hb, hbr, dispatchExc]

/-- Witness for `browser_interrupt_swallowed`: the serve loop later raises an
`OSError`, so this run does not exit 0 despite the interrupt. -/
theorem browser_interrupt_swallowed_witness :
    browserFailMsg ∈ (runMain ⟨none, some .keyboardInterrupt, .osError 48⟩).logs ∧
    (runMain ⟨none, some .keyboardInterrupt, .osError 48⟩).serveLoopEntered = true :=
  ⟨(browser_interrupt_swallowed ⟨none, some .keyboardInterrupt, .osError 48⟩ rfl rfl).1,
   (browser_interrupt_swallowed ⟨none, some .keyboardInterrupt, .osError 48⟩ rfl rfl).2.1⟩

end ServeTestApp
